import Mathlib

/-!
Verification of the JWST image-visualization script (WEBB.py).

A shallow embedding of the script's acquisition component (cache check,
bounded retry loop with exponential backoff, observation filtering,
product download), its target-selection prompt, its color-mode check,
its normalization math, and its source-detection data flow, together
with theorems settling the specification's claims about them.

The script is straight-line code with side effects; we model a run as a
trace of externally visible events (network calls, sleeps, file I/O,
rendering) paired with an `Except` outcome, parameterized by an
environment describing the cache state and the remote archive's
responses.
-/

/-- Externally visible actions of one run of the script, in order. -/
inductive Event where
  | netQuery (attempt : Nat)
  | sleep (seconds : Nat)
  | netProductList
  | netDownload
  | fileWrite
  | fileOpen
  | render
  | detectThresholdCall
  | detectSourcesCall
  | sourceCatalogCall
  | parallelDetectCall
deriving DecidableEq

/-- One row of the observation table returned by the archive query
(`obs_table` in WEBB.py); only the columns the script filters on. -/
structure Row where
  obs_collection : String
  dataproduct_type : String
  instrument_name : String
deriving DecidableEq

/-- The observation table: its rows plus which optional columns are
present (`colnames` checks in WEBB.py lines 99 and 103). -/
structure ObsTable where
  hasDataproductCol : Bool
  hasInstrumentCol : Bool
  rows : List Row
deriving DecidableEq

/-- Outcome of one `Observations.query_object` call: either a
timeout-class exception (`TimeoutError` / `AstroQueryTimeout`) or a
returned table. -/
inductive QueryResult where
  | timeout
  | ok (t : ObsTable)
deriving DecidableEq

/-- The environment of a run: whether the cache file for the selected
target exists, what the archive answers on the i-th query attempt, and
whether filtering the product list for CAL/fits entries is non-empty. -/
structure Env where
  cacheExists : Bool
  query : Nat → QueryResult
  hasCalibProducts : Bool

/-- WEBB.py line 83: `max_retries = 3`. -/
def max_retries : Nat := 3

/-- WEBB.py line 84: `retry_delay = 5` (seconds), the initial backoff. -/
def retry_delay : Nat := 5

/-- Python `str.replace(old, new)` for single-character arguments:
replace every occurrence of the character. -/
def pyReplaceChar (old new : Char) (s : String) : String :=
  String.mk (s.data.map (fun c => if c = old then new else c))

/-- Python `str.strip()`: remove leading and trailing whitespace. -/
def pyStrip (s : String) : String :=
  String.mk (((s.data.dropWhile Char.isWhitespace).reverse.dropWhile
    Char.isWhitespace).reverse)

/-- Python `str.upper()` (ASCII case mapping, per character). -/
def pyUpper (s : String) : String := String.mk (s.data.map Char.toUpper)

/-- WEBB.py line 74: the cache path
`os.path.join("cached_data", f"\x7btarget.replace(' ', '_')\x7d.fits")`. -/
def cache_file (target : String) : String :=
  "cached_data/" ++ pyReplaceChar ' ' '_' target ++ ".fits"

/-- WEBB.py line 96: keep rows whose `obs_collection` is `JWST`. -/
def filter_collection (t : ObsTable) : ObsTable :=
  { t with rows := t.rows.filter (fun r => r.obs_collection == "JWST") }

/-- WEBB.py lines 99-100: if the `dataproduct_type` column is present,
keep rows whose value is `image` (unconditionally, even if empty). -/
def filter_dataproduct (t : ObsTable) : ObsTable :=
  if t.hasDataproductCol then
    { t with rows := t.rows.filter (fun r => r.dataproduct_type == "image") }
  else t

/-- WEBB.py lines 103-106: if the `instrument_name` column is present,
keep the NIRCAM rows, but only when that result is non-empty. -/
def filter_instrument (t : ObsTable) : ObsTable :=
  if t.hasInstrumentCol then
    let nircam := t.rows.filter (fun r => r.instrument_name == "NIRCAM")
    if nircam.length > 0 then { t with rows := nircam } else t
  else t

/-- WEBB.py lines 95-106: the progressive filtering of the query result
into `jwst_obs`. -/
def filter_jwst_obs (t : ObsTable) : ObsTable :=
  filter_instrument (filter_dataproduct (filter_collection t))

/-- WEBB.py lines 88-117: the `while attempt < max_retries` loop. The
fuel argument is `max_retries - attempt`, so fuel 0 is unreachable from
the top-level call. On success the loop breaks with the filtered table;
after a timeout it sleeps `delay` and doubles it, unless the incremented
attempt counter reaches the bound, in which case it raises. -/
def retry_loop (env : Env) : Nat → Nat → Nat → List Event × Except String ObsTable
  | _, _, 0 => ([], Except.error "All retry attempts failed")
  | attempt, delay, fuel + 1 =>
    match env.query attempt with
    | QueryResult.ok t => ([Event.netQuery attempt], Except.ok (filter_jwst_obs t))
    | QueryResult.timeout =>
      if attempt + 1 < max_retries then
        let r := retry_loop env (attempt + 1) (delay * 2) fuel
        (Event.netQuery attempt :: Event.sleep delay :: r.1, r.2)
      else
        ([Event.netQuery attempt], Except.error "All retry attempts failed")

/-- WEBB.py lines 80-139: the body of the outer `try` block — run the
retry loop, then on a non-empty filtered table list products, filter for
calibrated products, download one and move it into the cache; raise on
an empty table or an empty calibrated-product list. -/
def fetch_and_cache (env : Env) (target : String) : List Event × Except String String :=
  match retry_loop env 0 retry_delay max_retries with
  | (tr, Except.error e) => (tr, Except.error e)
  | (tr, Except.ok jwst_obs) =>
    if jwst_obs.rows.length > 0 then
      if env.hasCalibProducts then
        (tr ++ [Event.netProductList, Event.netDownload, Event.fileWrite],
          Except.ok (cache_file target))
      else
        (tr ++ [Event.netProductList],
          Except.error "No calibrated products found for the first JWST observation.")
    else
      (tr, Except.error "No matching JWST observations found!")

/-- WEBB.py lines 72-147: the acquisition component. Cache hit returns
the cache path with no further activity; otherwise fetch, and on any
exception fall back to the cache if it exists, else re-raise with the
wrapping message of line 147. -/
def acquisition (env : Env) (target : String) : List Event × Except String String :=
  if env.cacheExists then ([], Except.ok (cache_file target))
  else
    match fetch_and_cache env target with
    | (tr, Except.ok p) => (tr, Except.ok p)
    | (tr, Except.error e) =>
      if env.cacheExists then (tr, Except.ok (cache_file target))
      else (tr, Except.error ("Error querying MAST and no cached file available: " ++ e))

/-- Number of `query_object` network calls in a trace. -/
def countQueries (tr : List Event) : Nat :=
  tr.countP (fun e => match e with | Event.netQuery _ => true | _ => false)

/-- The sleep delays of a trace, in order. -/
def sleepDelays (tr : List Event) : List Nat :=
  tr.filterMap (fun e => match e with | Event.sleep d => some d | _ => none)

/-- WEBB.py lines 26-60: the `TARGETS` dictionary as an association list
`(key, (name, description))`, in source order. -/
def TARGETS : List (String × String × String) :=
  [ ("SMACS", "SMACS J0723.3-7327", "Galaxy cluster SMACS 0723"),
    ("CARINA", "NGC 3372", "Carina Nebula"),
    ("CARTWHEEL", "ESO 350-40", "Cartwheel Galaxy"),
    ("PILLARS", "M16", "Pillars of Creation in Eagle Nebula"),
    ("STEPHAN", "Stephan\x27s Quintet", "Compact galaxy group HCG 92"),
    ("SOUTHERN", "NGC 7469", "Southern Ring Nebula"),
    ("ORION", "NGC 1976", "Orion Nebula"),
    ("PANDORA", "Pandora Cluster", "Abell 2744 galaxy cluster") ]

/-- WEBB.py line 67: normalize the raw prompt input —
`input(...).strip().upper() or 'SMACS'`. -/
def target_key (rawInput : String) : String :=
  let s := pyUpper (pyStrip rawInput)
  if s = "" then "SMACS" else s

/-- WEBB.py lines 67-68: resolve the prompt input to the target's
display name; `none` models the uncaught `KeyError` of `TARGETS[...]`
when the key is not in the dictionary. -/
def selectTarget (rawInput : String) : Option String :=
  (TARGETS.find? (fun p => p.1 == target_key rawInput)).map (fun p => p.2.1)

/-- WEBB.py lines 62-232 as a trace: target selection, acquisition,
`fits.open` of the returned path, the COLOR_MODE check of lines 156-162
(reached only after acquisition and file open), rendering, and the
optional source-detection pass of lines 213-218, which calls
`detect_threshold`, `detect_sources` and `SourceCatalog` and never calls
`detect_sources_parallel`. -/
def mainProgram (env : Env) (rawInput colorMode : String) (performDetection : Bool) :
    List Event × Except String Unit :=
  match selectTarget rawInput with
  | none => ([], Except.error ("KeyError: " ++ target_key rawInput))
  | some target =>
    match acquisition env target with
    | (tr, Except.error e) => (tr, Except.error e)
    | (tr, Except.ok _) =>
      let evs := tr ++ [Event.fileOpen]
      if colorMode = "grayscale" ∨ colorMode = "false_color" then
        let evs := evs ++ [Event.render]
        if performDetection then
          (evs ++ [Event.detectThresholdCall, Event.detectSourcesCall,
            Event.sourceCatalogCall], Except.ok ())
        else (evs, Except.ok ())
      else
        (evs, Except.error "Invalid COLOR_MODE. Choose from \x27grayscale\x27 or \x27false_color\x27.")

/-- The filtering as the spec's words describe it (section 4.1 step 4):
at each of the three steps, the narrower filter is kept only when its
result is non-empty. Stated only to be compared with `filter_jwst_obs`,
which is translated from the source. -/
def filter_jwst_obs_spec (t : ObsTable) : ObsTable :=
  let keep := fun (rows newRows : List Row) => if newRows.length > 0 then newRows else rows
  let s1 := keep t.rows (t.rows.filter (fun r => r.obs_collection == "JWST"))
  let s2 := if t.hasDataproductCol then
      keep s1 (s1.filter (fun r => r.dataproduct_type == "image")) else s1
  let s3 := if t.hasInstrumentCol then
      keep s2 (s2.filter (fun r => r.instrument_name == "NIRCAM")) else s2
  { t with rows := s3 }

/-- The chunk sizes `numpy.array_split` uses for length `l` into `n`
parts: the first `l % n` parts get `l / n + 1` rows, the rest `l / n`. -/
def splitSizes (l n : Nat) : List Nat :=
  (List.range n).map (fun i => if i < l % n then l / n + 1 else l / n)

/-- Cut a list into consecutive chunks of the given sizes. -/
def chunksOfSizes {α : Type} : List Nat → List α → List (List α)
  | [], _ => []
  | s :: ss, xs => xs.take s :: chunksOfSizes ss (xs.drop s)

/-- Model of `numpy.array_split(data, n)` on the row list of a 2D array. -/
def array_split {α : Type} (data : List α) (n : Nat) : List (List α) :=
  chunksOfSizes (splitSizes data.length n) data

/-- WEBB.py lines 204-210: `detect_sources_parallel` splits the image
into 4 row-wise sections and maps the detection routine (an external
library call, here a parameter) over the chunks with a pool of 4
workers; `Pool.map` preserves submission order. -/
def detect_sources_parallel {Thr Seg : Type} (detect : List (List Int) → Thr → Nat → Seg)
    (data : List (List Int)) (threshold : Thr) (npixels : Nat) : List Seg :=
  (array_split data 4).map (fun chunk => detect chunk threshold npixels)

/-- WEBB.py lines 213-218: the authoritative source-detection pass —
`detect_threshold(data, nsigma=3)`, `detect_sources(data, threshold,
npixels=10)`, then `SourceCatalog(data, segm)`. The three library
routines are parameters; the data flow is the script's. -/
def source_detection_step {Thr Seg Cat : Type}
    (dthreshold : List (List Int) → Nat → Thr)
    (dsources : List (List Int) → Thr → Nat → Seg)
    (scatalog : List (List Int) → Seg → Cat)
    (performDetection : Bool) (data : List (List Int)) : Option Cat :=
  if performDetection then
    let threshold := dthreshold data 3
    let segm := dsources data threshold 10
    some (scatalog data segm)
  else none

noncomputable section

/-- astropy `LogStretch` with its default `a = 1000`:
`y = log(a * x + 1) / log(a + 1)`. -/
def logStretch (x : ℝ) : ℝ := Real.log (1000 * x + 1) / Real.log 1001

/-- The clipping to the unit interval that `ImageNormalize` applies
(its default `clip=True`). -/
def clip01 (x : ℝ) : ℝ := max 0 (min 1 x)

/-- Minimum of a pixel list (`MinMaxInterval`'s vmin). -/
def listMin : List ℝ → ℝ
  | [] => 0
  | x :: xs => xs.foldl min x

/-- Maximum of a pixel list (`MinMaxInterval`'s vmax). -/
def listMax : List ℝ → ℝ
  | [] => 0
  | x :: xs => xs.foldl max x

/-- WEBB.py line 157: `ImageNormalize(data, interval=MinMaxInterval(),
stretch=LogStretch())` applied to a pixel value `x` — rescale by the
data's min/max interval, clip to the unit interval, apply the log
stretch. Real-number idealization of the floating-point computation. -/
def imageNormalize (data : List ℝ) (x : ℝ) : ℝ :=
  logStretch (clip01 ((x - listMin data) / (listMax data - listMin data)))

end

/-! ## Concrete environments and tables used as test inputs -/

/-- A table with one JWST NIRCam image row, both optional columns present. -/
def sampleTable : ObsTable :=
  { hasDataproductCol := true, hasInstrumentCol := true,
    rows := [{ obs_collection := "JWST", dataproduct_type := "image",
               instrument_name := "NIRCAM" }] }

/-- A table whose query succeeded but returned zero rows. -/
def emptyTable : ObsTable :=
  { hasDataproductCol := true, hasInstrumentCol := true, rows := [] }

/-- A non-empty table with no JWST rows at all. -/
def hstTable : ObsTable :=
  { hasDataproductCol := true, hasInstrumentCol := true,
    rows := [{ obs_collection := "HST", dataproduct_type := "image",
               instrument_name := "WFC3" }] }

/-- Environment: the cache file already exists. -/
def envCacheHit : Env :=
  { cacheExists := true, query := fun _ => QueryResult.timeout, hasCalibProducts := false }

/-- Environment: no cache; every query attempt times out (so attempts
0, 1, 2 time out and attempt 3, were it ever made, would also). -/
def envAllTimeouts : Env :=
  { cacheExists := false, query := fun _ => QueryResult.timeout, hasCalibProducts := true }

/-- Environment: no cache; attempts 0, 1, 2 time out and attempt 3
(never reached by the code) would succeed — the premise of the spec's
four-attempt schedule. -/
def envThreeTimeoutsThenOk : Env :=
  { cacheExists := false,
    query := fun i => if i < 3 then QueryResult.timeout else QueryResult.ok sampleTable,
    hasCalibProducts := true }

/-- Environment: no cache; attempts 0 and 1 time out, attempt 2 succeeds. -/
def envTwoTimeoutsThenOk : Env :=
  { cacheExists := false,
    query := fun i => if i < 2 then QueryResult.timeout else QueryResult.ok sampleTable,
    hasCalibProducts := true }

/-- Environment: no cache; the first query immediately returns zero
observations. -/
def envEmptyQuery : Env :=
  { cacheExists := false, query := fun _ => QueryResult.ok emptyTable,
    hasCalibProducts := true }

/-- Environment: no cache; the first query succeeds with a usable row. -/
def envQuickSuccess : Env :=
  { cacheExists := false, query := fun _ => QueryResult.ok sampleTable,
    hasCalibProducts := true }

/-! ## Helper lemmas about the retry loop and traces -/

lemma retry_loop_ok_step (env : Env) (att delay fuel : Nat) (t : ObsTable)
    (h : env.query att = QueryResult.ok t) :
    retry_loop env att delay (fuel + 1) =
      ([Event.netQuery att], Except.ok (filter_jwst_obs t)) := by
  simp [retry_loop, h]

lemma retry_loop_timeout_step (env : Env) (att delay fuel : Nat)
    (h : env.query att = QueryResult.timeout) (hlt : att + 1 < max_retries) :
    retry_loop env att delay (fuel + 1) =
      (Event.netQuery att :: Event.sleep delay :: (retry_loop env (att + 1) (delay * 2) fuel).1,
        (retry_loop env (att + 1) (delay * 2) fuel).2) := by
  simp [retry_loop, h, hlt]

lemma retry_loop_timeout_stop (env : Env) (att delay fuel : Nat)
    (h : env.query att = QueryResult.timeout) (hge : ¬ att + 1 < max_retries) :
    retry_loop env att delay (fuel + 1) =
      ([Event.netQuery att], Except.error "All retry attempts failed") := by
  simp [retry_loop, h, hge]

/-- Scenario: the first query succeeds — a single attempt, no sleep. -/
lemma retry_loop_first_ok (env : Env) (t : ObsTable) (h : env.query 0 = QueryResult.ok t) :
    retry_loop env 0 retry_delay max_retries =
      ([Event.netQuery 0], Except.ok (filter_jwst_obs t)) := by
  show retry_loop env 0 retry_delay (2 + 1) = _
  rw [retry_loop_ok_step env 0 retry_delay 2 t h]

/-- Scenario: two timeouts then a success — three attempts with sleeps
of 5 and 10 seconds between them. -/
lemma retry_loop_tt_ok (env : Env) (t : ObsTable)
    (h0 : env.query 0 = QueryResult.timeout) (h1 : env.query 1 = QueryResult.timeout)
    (h2 : env.query 2 = QueryResult.ok t) :
    retry_loop env 0 retry_delay max_retries =
      ([Event.netQuery 0, Event.sleep 5, Event.netQuery 1, Event.sleep 10, Event.netQuery 2],
        Except.ok (filter_jwst_obs t)) := by
  show retry_loop env 0 retry_delay (2 + 1) = _
  rw [retry_loop_timeout_step env 0 retry_delay 2 h0 (by decide)]
  rw [show retry_loop env (0 + 1) (retry_delay * 2) 2 = retry_loop env 1 10 (1 + 1) from rfl]
  rw [retry_loop_timeout_step env 1 10 1 h1 (by decide)]
  rw [show retry_loop env (1 + 1) (10 * 2) 1 = retry_loop env 2 20 (0 + 1) from rfl]
  rw [retry_loop_ok_step env 2 20 0 t h2]
  rfl

/-- Scenario: three timeouts — three attempts, sleeps of 5 and 10, then
the loop raises. -/
lemma retry_loop_ttt (env : Env)
    (h0 : env.query 0 = QueryResult.timeout) (h1 : env.query 1 = QueryResult.timeout)
    (h2 : env.query 2 = QueryResult.timeout) :
    retry_loop env 0 retry_delay max_retries =
      ([Event.netQuery 0, Event.sleep 5, Event.netQuery 1, Event.sleep 10, Event.netQuery 2],
        Except.error "All retry attempts failed") := by
  show retry_loop env 0 retry_delay (2 + 1) = _
  rw [retry_loop_timeout_step env 0 retry_delay 2 h0 (by decide)]
  rw [show retry_loop env (0 + 1) (retry_delay * 2) 2 = retry_loop env 1 10 (1 + 1) from rfl]
  rw [retry_loop_timeout_step env 1 10 1 h1 (by decide)]
  rw [show retry_loop env (1 + 1) (10 * 2) 1 = retry_loop env 2 20 (0 + 1) from rfl]
  rw [retry_loop_timeout_stop env 2 20 0 h2 (by decide)]
  rfl

/-- Every event the retry loop emits is a query or a sleep. -/
lemma retry_trace_mem (env : Env) (att delay fuel : Nat) (e : Event)
    (he : e ∈ (retry_loop env att delay fuel).1) :
    (∃ a, e = Event.netQuery a) ∨ (∃ d, e = Event.sleep d) := by
  induction fuel generalizing att delay with
  | zero => simp [retry_loop] at he
  | succ n ih =>
    cases hq : env.query att with
    | ok t =>
      rw [retry_loop_ok_step env att delay n t hq] at he
      simp at he
      exact Or.inl ⟨att, he⟩
    | timeout =>
      by_cases hlt : att + 1 < max_retries
      · rw [retry_loop_timeout_step env att delay n hq hlt] at he
        simp at he
        rcases he with h | h | h
        · exact Or.inl ⟨att, h⟩
        · exact Or.inr ⟨delay, h⟩
        · exact ih (att + 1) (delay * 2) h
      · rw [retry_loop_timeout_stop env att delay n hq hlt] at he
        simp at he
        exact Or.inl ⟨att, he⟩

/-- The retry loop makes at most `fuel` query attempts. -/
lemma retry_countQueries_le (env : Env) (att delay fuel : Nat) :
    countQueries (retry_loop env att delay fuel).1 ≤ fuel := by
  induction fuel generalizing att delay with
  | zero => simp [retry_loop, countQueries]
  | succ n ih =>
    cases hq : env.query att with
    | ok t =>
      rw [retry_loop_ok_step env att delay n t hq]
      simp [countQueries]
    | timeout =>
      by_cases hlt : att + 1 < max_retries
      · rw [retry_loop_timeout_step env att delay n hq hlt]
        have := ih (att + 1) (delay * 2)
        simp [countQueries, List.countP_cons] at this ⊢
        omega
      · rw [retry_loop_timeout_stop env att delay n hq hlt]
        simp [countQueries]

/-- The fetch phase appends only non-query, non-sleep events to the
retry loop's trace. -/
lemma fetch_and_cache_counts (env : Env) (target : String) :
    countQueries (fetch_and_cache env target).1 =
      countQueries (retry_loop env 0 retry_delay max_retries).1 ∧
    sleepDelays (fetch_and_cache env target).1 =
      sleepDelays (retry_loop env 0 retry_delay max_retries).1 := by
  unfold fetch_and_cache
  rcases hr : retry_loop env 0 retry_delay max_retries with ⟨tr, res⟩
  cases res with
  | error e => simp
  | ok jwst_obs =>
    by_cases hlen : jwst_obs.rows.length > 0
    · by_cases hcal : env.hasCalibProducts
      · simp [hlen, hcal, countQueries, sleepDelays, List.countP_append, List.filterMap_append]
      · simp [hlen, hcal, countQueries, sleepDelays, List.countP_append, List.filterMap_append]
    · simp [hlen]

/-- Every event the fetch phase emits is a query, a sleep, or one of the
product-list / download / cache-write actions. -/
lemma fetch_trace_mem (env : Env) (target : String) (e : Event)
    (he : e ∈ (fetch_and_cache env target).1) :
    (∃ a, e = Event.netQuery a) ∨ (∃ d, e = Event.sleep d) ∨
      e = Event.netProductList ∨ e = Event.netDownload ∨ e = Event.fileWrite := by
  unfold fetch_and_cache at he
  rcases hr : retry_loop env 0 retry_delay max_retries with ⟨tr, res⟩
  rw [hr] at he
  have base : ∀ x ∈ tr, (∃ a, x = Event.netQuery a) ∨ (∃ d, x = Event.sleep d) := by
    intro x hx
    exact retry_trace_mem env 0 retry_delay max_retries x (by rw [hr]; exact hx)
  cases res with
  | error err =>
    simp at he
    rcases base e he with h | h
    · exact Or.inl h
    · exact Or.inr (Or.inl h)
  | ok jwst_obs =>
    by_cases hlen : jwst_obs.rows.length > 0
    · by_cases hcal : env.hasCalibProducts
      · simp [hlen, hcal] at he
        rcases he with h | h | h | h
        · rcases base e h with h2 | h2
          · exact Or.inl h2
          · exact Or.inr (Or.inl h2)
        · exact Or.inr (Or.inr (Or.inl h))
        · exact Or.inr (Or.inr (Or.inr (Or.inl h)))
        · exact Or.inr (Or.inr (Or.inr (Or.inr h)))
      · simp [hlen, hcal] at he
        rcases he with h | h
        · rcases base e h with h2 | h2
          · exact Or.inl h2
          · exact Or.inr (Or.inl h2)
        · exact Or.inr (Or.inr (Or.inl h))
    · simp [hlen] at he
      rcases base e he with h | h
      · exact Or.inl h
      · exact Or.inr (Or.inl h)

/-- When the cache is absent, the acquisition trace is exactly the fetch
trace, whatever the outcome. -/
lemma acquisition_fst (env : Env) (target : String) (h : env.cacheExists = false) :
    (acquisition env target).1 = (fetch_and_cache env target).1 := by
  unfold acquisition
  rw [h]
  rcases hf : fetch_and_cache env target with ⟨tr, res⟩
  cases res with
  | error e => simp [h]
  | ok p => simp

/-- Every event acquisition emits is a query, a sleep, or one of the
product-list / download / cache-write actions. -/
lemma acquisition_trace_mem (env : Env) (target : String) (e : Event)
    (he : e ∈ (acquisition env target).1) :
    (∃ a, e = Event.netQuery a) ∨ (∃ d, e = Event.sleep d) ∨
      e = Event.netProductList ∨ e = Event.netDownload ∨ e = Event.fileWrite := by
  cases hc : env.cacheExists with
  | true => unfold acquisition at he; rw [hc] at he; simp at he
  | false =>
    rw [acquisition_fst env target hc] at he
    exact fetch_trace_mem env target e he

/-! ## Helper lemmas about the observation filtering -/

/-- Filtering an empty query result leaves it empty. -/
lemma filter_jwst_obs_nil (t : ObsTable) (h : t.rows = []) :
    (filter_jwst_obs t).rows = [] := by
  cases hd : t.hasDataproductCol <;> cases hi : t.hasInstrumentCol <;>
    simp [filter_jwst_obs, filter_collection, filter_dataproduct, filter_instrument, h, hd, hi]

/-- The instrument filter never turns a non-empty table empty. -/
lemma filter_instrument_nonempty (t : ObsTable) (h : t.rows ≠ []) :
    (filter_instrument t).rows ≠ [] := by
  unfold filter_instrument
  by_cases hi : t.hasInstrumentCol
  · simp only [hi, if_true]
    by_cases hn : (t.rows.filter (fun r => r.instrument_name == "NIRCAM")).length > 0
    · simp only [hn, if_true]
      intro hnil
      rw [hnil] at hn
      simp at hn
    · simp only [hn, if_false]
      exact h
  · simp only [hi, if_false]
    exact h

/-- The instrument filter only selects among its input rows. -/
lemma filter_instrument_subset (t : ObsTable) :
    (filter_instrument t).rows ⊆ t.rows := by
  unfold filter_instrument
  by_cases hi : t.hasInstrumentCol
  · simp only [hi, if_true]
    by_cases hn : (t.rows.filter (fun r => r.instrument_name == "NIRCAM")).length > 0
    · simp only [hn, if_true]
      exact fun x hx => List.mem_of_mem_filter hx
    · simp only [hn, if_false]
      exact fun x hx => hx
  · simp only [hi, if_false]
    exact fun x hx => hx

/-- The product-type filter only selects among its input rows. -/
lemma filter_dataproduct_subset (t : ObsTable) :
    (filter_dataproduct t).rows ⊆ t.rows := by
  unfold filter_dataproduct
  by_cases hd : t.hasDataproductCol
  · simp only [hd, if_true]
    exact fun x hx => List.mem_of_mem_filter hx
  · simp only [hd, if_false]
    exact fun x hx => hx

/-- Every row surviving the full filter chain is a JWST row. -/
lemma filter_jwst_obs_collection (t : ObsTable) (r : Row)
    (hr : r ∈ (filter_jwst_obs t).rows) : r.obs_collection = "JWST" := by
  have h1 : r ∈ (filter_dataproduct (filter_collection t)).rows :=
    filter_instrument_subset _ hr
  have h2 : r ∈ (filter_collection t).rows := filter_dataproduct_subset _ h1
  have h3 := List.mem_filter.mp h2
  simpa using h3.2

/-! ## Helper lemmas about the chunked split -/

lemma chunksOfSizes_length {α : Type} (ss : List Nat) (xs : List α) :
    (chunksOfSizes ss xs).length = ss.length := by
  induction ss generalizing xs with
  | nil => simp [chunksOfSizes]
  | cons s ss ih => simp [chunksOfSizes, ih]

lemma chunksOfSizes_join {α : Type} (ss : List Nat) (xs : List α)
    (h : xs.length ≤ ss.sum) : (chunksOfSizes ss xs).flatten = xs := by
  induction ss generalizing xs with
  | nil =>
    simp at h
    simp [chunksOfSizes, h]
  | cons s ss ih =>
    simp only [List.sum_cons] at h
    simp only [chunksOfSizes, List.flatten_cons]
    rw [ih (xs.drop s) (by simp; omega)]
    exact List.take_append_drop s xs

lemma splitSizes_four_length (l : Nat) : (splitSizes l 4).length = 4 := by
  simp [splitSizes]

lemma splitSizes_four_sum (l : Nat) : (splitSizes l 4).sum = l := by
  have hdm := Nat.div_add_mod l 4
  unfold splitSizes
  rw [show List.range 4 = [0, 1, 2, 3] from rfl]
  rcases (by omega : l % 4 = 0 ∨ l % 4 = 1 ∨ l % 4 = 2 ∨ l % 4 = 3) with h | h | h | h <;>
    simp [h] <;> omega

/-- `array_split` into 4 yields exactly 4 row chunks that concatenate
back to the original rows. -/
lemma array_split_four {α : Type} (data : List α) :
    (array_split data 4).length = 4 ∧ (array_split data 4).flatten = data := by
  constructor
  · rw [array_split, chunksOfSizes_length, splitSizes_four_length]
  · exact chunksOfSizes_join _ _ (by rw [splitSizes_four_sum])

/-! ## Helper lemmas about the normalization -/

lemma foldl_min_le (l : List ℝ) (a : ℝ) : l.foldl min a ≤ a := by
  induction l generalizing a with
  | nil => simp
  | cons b t ih => calc
      (b :: t).foldl min a = t.foldl min (min a b) := by simp
      _ ≤ min a b := ih (min a b)
      _ ≤ a := min_le_left _ _

lemma le_foldl_max (l : List ℝ) (a : ℝ) : a ≤ l.foldl max a := by
  induction l generalizing a with
  | nil => simp
  | cons b t ih => calc
      a ≤ max a b := le_max_left _ _
      _ ≤ t.foldl max (max a b) := ih (max a b)
      _ = (b :: t).foldl max a := by simp

lemma listMin_le_listMax (data : List ℝ) : listMin data ≤ listMax data := by
  cases data with
  | nil => simp [listMin, listMax]
  | cons x xs => calc
      listMin (x :: xs) ≤ x := foldl_min_le xs x
      _ ≤ listMax (x :: xs) := le_foldl_max xs x

lemma clip01_mono {x y : ℝ} (h : x ≤ y) : clip01 x ≤ clip01 y :=
  max_le_max le_rfl (min_le_min le_rfl h)

lemma clip01_nonneg (x : ℝ) : 0 ≤ clip01 x := le_max_left _ _

lemma logStretch_mono {x y : ℝ} (hx : 0 ≤ x) (hxy : x ≤ y) :
    logStretch x ≤ logStretch y := by
  unfold logStretch
  have hden : 0 < Real.log 1001 := Real.log_pos (by norm_num)
  have hnum : Real.log (1000 * x + 1) ≤ Real.log (1000 * y + 1) := by
    apply Real.log_le_log (by nlinarith)
    nlinarith
  exact div_le_div_of_nonneg_right hnum hden.le

/-- Acquisition never renders. -/
lemma acquisition_no_render (env : Env) (target : String) :
    Event.render ∉ (acquisition env target).1 := by
  intro he
  rcases acquisition_trace_mem env target _ he with ⟨a, h⟩ | ⟨d, h⟩ | h | h | h <;> simp at h

/-- Acquisition never runs the chunked detection. -/
lemma acquisition_no_parallel (env : Env) (target : String) :
    Event.parallelDetectCall ∉ (acquisition env target).1 := by
  intro he
  rcases acquisition_trace_mem env target _ he with ⟨a, h⟩ | ⟨d, h⟩ | h | h | h <;> simp at h

set_option maxHeartbeats 1000000 in
/-- Shape of the full program trace: acquisition events, the file open,
and — only when the color mode is one of the two supported values —
the render and detection events. `parallelDetectCall` never occurs. -/
lemma mainProgram_trace_cases (env : Env) (rawInput colorMode : String) (pd : Bool)
    (e : Event) (he : e ∈ (mainProgram env rawInput colorMode pd).1) :
    (∃ a, e = Event.netQuery a) ∨ (∃ d, e = Event.sleep d) ∨ e = Event.netProductList ∨
      e = Event.netDownload ∨ e = Event.fileWrite ∨ e = Event.fileOpen ∨
      ((colorMode = "grayscale" ∨ colorMode = "false_color") ∧
        (e = Event.render ∨ e = Event.detectThresholdCall ∨
          e = Event.detectSourcesCall ∨ e = Event.sourceCatalogCall)) := by
  unfold mainProgram at he
  cases hsel : selectTarget rawInput with
  | none => rw [hsel] at he; simp at he
  | some target =>
    rw [hsel] at he
    dsimp only at he
    rcases ha : acquisition env target with ⟨tr, res⟩
    rw [ha] at he
    have htr : ∀ x, x ∈ tr →
        (∃ a, x = Event.netQuery a) ∨ (∃ d, x = Event.sleep d) ∨ x = Event.netProductList ∨
          x = Event.netDownload ∨ x = Event.fileWrite := by
      intro x hx
      exact acquisition_trace_mem env target x (by rw [ha]; exact hx)
    cases res with
    | error err =>
      dsimp only at he
      rcases htr e he with h | h | h | h | h <;> tauto
    | ok p =>
      by_cases hm : colorMode = "grayscale" ∨ colorMode = "false_color"
      · have hsplit : e ∈ tr ∨ e = Event.fileOpen ∨ e = Event.render ∨
            e = Event.detectThresholdCall ∨ e = Event.detectSourcesCall ∨
            e = Event.sourceCatalogCall := by
          cases pd <;> simp [hm] at he <;> tauto
        rcases hsplit with h | h
        · rcases htr e h with h2 | h2 | h2 | h2 | h2 <;> tauto
        · tauto
      · have hsplit : e ∈ tr ∨ e = Event.fileOpen := by
          simp [hm] at he
          tauto
        rcases hsplit with h | h
        · rcases htr e h with h2 | h2 | h2 | h2 | h2 <;> tauto
        · tauto

/-! ## Claim theorems -/

/-- Claim C3 (confirmed): for every target whose cache file already
exists, acquisition performs no network call (its trace is empty) and
returns the cache path unchanged. -/
theorem C3_thm (env : Env) (target : String) (h : env.cacheExists = true) :
    acquisition env target = ([], Except.ok (cache_file target)) := by
  unfold acquisition
  rw [h]
  simp

/-- Witness for C3 at a concrete cached environment and target. -/
theorem C3_witness : acquisition envCacheHit "M16" = ([], Except.ok (cache_file "M16")) :=
  C3_thm envCacheHit "M16" rfl

/-- Claim C4 (confirmed): three consecutive timeout failures with no
cache entry make acquisition raise the fatal wrapped timeout error, so
no file path is returned. -/
theorem C4_thm (env : Env) (target : String) (hc : env.cacheExists = false)
    (h0 : env.query 0 = QueryResult.timeout) (h1 : env.query 1 = QueryResult.timeout)
    (h2 : env.query 2 = QueryResult.timeout) :
    (acquisition env target).2 =
      Except.error "Error querying MAST and no cached file available: All retry attempts failed" := by
  have hr := retry_loop_ttt env h0 h1 h2
  unfold acquisition fetch_and_cache
  rw [hc, hr]
  simp [hc]

/-- Witness for C4 at a concrete all-timeouts environment. -/
theorem C4_witness :
    (acquisition envAllTimeouts "M16").2 =
      Except.error "Error querying MAST and no cached file available: All retry attempts failed" :=
  C4_thm envAllTimeouts "M16" rfl rfl rfl rfl

/-- Claim C5 (confirmed): a first query returning zero observations,
with no cache entry, makes acquisition raise the fatal "no observations"
error after exactly one attempt and no backoff sleep. -/
theorem C5_thm (env : Env) (target : String) (tbl : ObsTable)
    (hc : env.cacheExists = false) (h0 : env.query 0 = QueryResult.ok tbl)
    (hrows : tbl.rows = []) :
    (acquisition env target).2 =
      Except.error "Error querying MAST and no cached file available: No matching JWST observations found!" ∧
    countQueries (acquisition env target).1 = 1 ∧
    sleepDelays (acquisition env target).1 = [] := by
  have hr := retry_loop_first_ok env tbl h0
  unfold acquisition fetch_and_cache
  rw [hc, hr]
  simp [hc, filter_jwst_obs_nil tbl hrows, countQueries, sleepDelays]

/-- Witness for C5 at a concrete empty-query environment. -/
theorem C5_witness :
    (acquisition envEmptyQuery "M16").2 =
      Except.error "Error querying MAST and no cached file available: No matching JWST observations found!" ∧
    countQueries (acquisition envEmptyQuery "M16").1 = 1 ∧
    sleepDelays (acquisition envEmptyQuery "M16").1 = [] :=
  C5_thm envEmptyQuery "M16" emptyTable rfl rfl rfl

/-- Claim C1 (corrected) — counterexample: with three consecutive
timeouts and a fourth attempt that would succeed, the code performs
only 3 attempts (not 4), sleeps only 5 and 10 seconds (not 5, 10, 20),
and raises instead of reaching the would-be successful attempt. -/
theorem C1_counterexample :
    countQueries (acquisition envThreeTimeoutsThenOk "M16").1 = 3 ∧
    countQueries (acquisition envThreeTimeoutsThenOk "M16").1 ≠ 4 ∧
    sleepDelays (acquisition envThreeTimeoutsThenOk "M16").1 = [5, 10] ∧
    (acquisition envThreeTimeoutsThenOk "M16").2 =
      Except.error "Error querying MAST and no cached file available: All retry attempts failed" :=
  ⟨rfl, by decide, rfl, rfl⟩

/-- Claim C1 (corrected, amended): with 2 consecutive timeout failures
and a success on the third attempt, acquisition performs exactly 3
attempts and honors the doubling backoff schedule d, 2d (d = 5) between
them; the attempt bound is 3, so a fourth attempt never occurs. -/
theorem C1_amended_thm (env : Env) (target : String) (tbl : ObsTable)
    (hc : env.cacheExists = false)
    (h0 : env.query 0 = QueryResult.timeout) (h1 : env.query 1 = QueryResult.timeout)
    (h2 : env.query 2 = QueryResult.ok tbl) :
    countQueries (acquisition env target).1 = 3 ∧
    sleepDelays (acquisition env target).1 = [5, 10] := by
  have hr := retry_loop_tt_ok env tbl h0 h1 h2
  have hfc := fetch_and_cache_counts env target
  have hfst := acquisition_fst env target hc
  constructor
  · rw [hfst, hfc.1, hr]
    rfl
  · rw [hfst, hfc.2, hr]
    rfl

/-- Witness for the amended C1 at a concrete two-timeouts environment. -/
theorem C1_amended_witness :
    countQueries (acquisition envTwoTimeoutsThenOk "M16").1 = 3 ∧
    sleepDelays (acquisition envTwoTimeoutsThenOk "M16").1 = [5, 10] :=
  C1_amended_thm envTwoTimeoutsThenOk "M16" sampleTable rfl rfl rfl rfl

/-- Claim C2 (corrected) — counterexample: with an unsupported color
mode, an absent cache and a successful query, the run performs the
query, product download, cache write and file open — network and file
I/O — and only then raises the color-mode error. -/
theorem C2_counterexample :
    mainProgram envQuickSuccess "" "sepia" false =
      ([Event.netQuery 0, Event.netProductList, Event.netDownload, Event.fileWrite,
        Event.fileOpen],
        Except.error "Invalid COLOR_MODE. Choose from \x27grayscale\x27 or \x27false_color\x27.") ∧
    Event.netQuery 0 ∈ (mainProgram envQuickSuccess "" "sepia" false).1 ∧
    Event.fileOpen ∈ (mainProgram envQuickSuccess "" "sepia" false).1 :=
  ⟨rfl, by decide, by decide⟩

/-- Claim C2 (corrected, amended): an unsupported color mode makes the
run raise a fatal error — it never completes and never reaches any
rendering work — but the error is raised only after acquisition and the
file open, not before network or file I/O. -/
theorem C2_amended_thm (env : Env) (rawInput colorMode : String) (pd : Bool)
    (hg : colorMode ≠ "grayscale") (hf : colorMode ≠ "false_color") :
    Event.render ∉ (mainProgram env rawInput colorMode pd).1 ∧
    (mainProgram env rawInput colorMode pd).2 ≠ Except.ok () := by
  constructor
  · intro he
    rcases mainProgram_trace_cases env rawInput colorMode pd _ he with
      ⟨a, h⟩ | ⟨d, h⟩ | h | h | h | h | ⟨hm, h⟩
    · simp at h
    · simp at h
    · simp at h
    · simp at h
    · simp at h
    · simp at h
    · rcases hm with hm | hm
      · exact hg hm
      · exact hf hm
  · unfold mainProgram
    cases hsel : selectTarget rawInput with
    | none => simp
    | some target =>
      dsimp only
      rcases ha : acquisition env target with ⟨tr, res⟩
      cases res with
      | error e => simp
      | ok p =>
        have hm : ¬(colorMode = "grayscale" ∨ colorMode = "false_color") := by
          intro hor
          rcases hor with h | h
          · exact hg h
          · exact hf h
        simp [hm]

/-- Witness for the amended C2 at a concrete invalid color mode. -/
theorem C2_amended_witness :
    Event.render ∉ (mainProgram envQuickSuccess "" "sepia" false).1 ∧
    (mainProgram envQuickSuccess "" "sepia" false).2 ≠ Except.ok () :=
  C2_amended_thm envQuickSuccess "" "sepia" false (by decide) (by decide)

/-- Claim C6 (corrected) — counterexample: a non-empty table with no
JWST rows. The spec's rule ("keep the narrowest non-empty filter at
each step") would keep the original row; the code keeps the empty
collection-filter result, so the two disagree. -/
theorem C6_counterexample :
    (filter_jwst_obs hstTable).rows = [] ∧
    hstTable.rows ≠ [] ∧
    (filter_jwst_obs_spec hstTable).rows = hstTable.rows ∧
    filter_jwst_obs hstTable ≠ filter_jwst_obs_spec hstTable := by
  refine ⟨rfl, by decide, rfl, by decide⟩

/-- Claim C6 (corrected, amended): the table is filtered progressively
by collection, then product type (when the column exists), then
instrument (when the column exists), but only the instrument step is
guarded by non-emptiness — the collection and product-type filters are
kept even when their result is empty. Hence whenever the first two
steps leave any rows, the final result is non-empty and consists of
JWST rows only. -/
theorem C6_amended_thm (t : ObsTable)
    (h : (filter_dataproduct (filter_collection t)).rows ≠ []) :
    (filter_jwst_obs t).rows ≠ [] ∧
    (filter_jwst_obs t).rows.all (fun r => r.obs_collection == "JWST") = true := by
  constructor
  · exact filter_instrument_nonempty _ h
  · rw [List.all_eq_true]
    intro r hr
    have := filter_jwst_obs_collection t r hr
    simp [this]

/-- Witness for the amended C6 at a concrete one-row JWST table. -/
theorem C6_amended_witness :
    (filter_jwst_obs sampleTable).rows ≠ [] ∧
    (filter_jwst_obs sampleTable).rows.all (fun r => r.obs_collection == "JWST") = true :=
  C6_amended_thm sampleTable (by decide)

/-- Claim C7 (confirmed): the cache path of each of the eight targets
is the fixed directory plus the space-sanitized display name plus the
fixed `.fits` extension; the eight paths are pairwise distinct, and
`cache_file` is a function of the target name alone, so each target maps
to at most one cache entry. -/
theorem C7_thm :
    (TARGETS.map (fun p => cache_file p.2.1)).Nodup ∧
    (TARGETS.all (fun p =>
      "cached_data/".data.isPrefixOf (cache_file p.2.1).data &&
      ".fits".data.isSuffixOf (cache_file p.2.1).data &&
      (cache_file p.2.1).data.all (fun c => !c.isWhitespace))) = true := by
  refine ⟨by decide, by decide⟩

/-- Claim C8 (confirmed): the data-parallel variant maps detection over
the 4 row-wise chunks of `array_split` — which partition the image (4
chunks whose concatenation is the original rows) — while the final
catalog is produced solely by the single non-chunked pass
(`detect_threshold`, `detect_sources`, `SourceCatalog` on the whole
array); `detect_sources_parallel` is never invoked in any run of the
program. -/
theorem C8_thm {Thr Seg Cat : Type}
    (dthreshold : List (List Int) → Nat → Thr)
    (dsources : List (List Int) → Thr → Nat → Seg)
    (scatalog : List (List Int) → Seg → Cat)
    (data : List (List Int)) (threshold : Thr) (npixels : Nat)
    (env : Env) (rawInput colorMode : String) (pd : Bool) :
    detect_sources_parallel dsources data threshold npixels =
      (array_split data 4).map (fun chunk => dsources chunk threshold npixels) ∧
    (array_split data 4).length = 4 ∧
    (array_split data 4).flatten = data ∧
    source_detection_step dthreshold dsources scatalog true data =
      some (scatalog data (dsources data (dthreshold data 3) 10)) ∧
    Event.parallelDetectCall ∉ (mainProgram env rawInput colorMode pd).1 := by
  refine ⟨rfl, (array_split_four data).1, (array_split_four data).2, rfl, ?_⟩
  intro he
  rcases mainProgram_trace_cases env rawInput colorMode pd _ he with
    ⟨a, h⟩ | ⟨d, h⟩ | h | h | h | h | ⟨hm, h | h | h | h⟩ <;> simp at h

/-- Claim C9 (confirmed): the min/max-interval log-stretch pixel
normalization is monotonic — for finite pixel values `0 ≤ a < b` the
normalized value of `a` is at most that of `b`. -/
theorem C9_thm (data : List ℝ) (a b : ℝ) (ha : 0 ≤ a) (hab : a < b) :
    imageNormalize data a ≤ imageNormalize data b := by
  unfold imageNormalize
  have hmm : listMin data ≤ listMax data := listMin_le_listMax data
  have hpre : (a - listMin data) / (listMax data - listMin data) ≤
      (b - listMin data) / (listMax data - listMin data) := by
    rcases eq_or_lt_of_le hmm with heq | hlt
    · rw [← heq, sub_self, div_zero, div_zero]
    · exact (div_le_div_iff_of_pos_right (by linarith)).mpr (by linarith)
  exact logStretch_mono (clip01_nonneg _) (clip01_mono hpre)

/-- Witness for C9 at concrete pixel data and values. -/
theorem C9_witness :
    (0 : ℝ) ≤ 0 ∧ (0 : ℝ) < 1 ∧ imageNormalize [0, 2] 0 ≤ imageNormalize [0, 2] 1 :=
  ⟨le_refl 0, by norm_num, C9_thm [0, 2] 0 1 (le_refl 0) (by norm_num)⟩

/-- Claim C10 (confirmed): if the stripped, uppercased prompt input is
non-blank and is not one of the eight target keys, the run stops at the
uncaught `KeyError` with an empty trace — before any acquisition work;
a blank input selects the default target SMACS. -/
theorem C10_thm (env : Env) (rawInput colorMode : String) (pd : Bool) :
    (pyUpper (pyStrip rawInput) ≠ "" →
      (∀ p ∈ TARGETS, p.1 ≠ pyUpper (pyStrip rawInput)) →
      mainProgram env rawInput colorMode pd =
        ([], Except.error ("KeyError: " ++ pyUpper (pyStrip rawInput)))) ∧
    (pyUpper (pyStrip rawInput) = "" →
      selectTarget rawInput = some "SMACS J0723.3-7327") := by
  constructor
  · intro hne hall
    have hkey : target_key rawInput = pyUpper (pyStrip rawInput) := by
      unfold target_key
      simp [hne]
    have hsel : selectTarget rawInput = none := by
      unfold selectTarget
      rw [List.find?_eq_none.mpr]
      · rfl
      · intro p hp
        simp only [beq_iff_eq, hkey]
        exact hall p hp
    unfold mainProgram
    rw [hsel, hkey]
  · intro hb
    have hkey : target_key rawInput = "SMACS" := by
      unfold target_key
      simp [hb]
    unfold selectTarget
    rw [hkey]
    rfl

/-- Witness for C10: the input `FOO` is rejected with an empty trace;
a blank input resolves to the SMACS display name. -/
theorem C10_witness :
    mainProgram envCacheHit "foo" "grayscale" true =
      ([], Except.error ("KeyError: " ++ pyUpper (pyStrip "foo"))) ∧
    selectTarget "  " = some "SMACS J0723.3-7327" :=
  ⟨(C10_thm envCacheHit "foo" "grayscale" true).1 (by decide) (by decide),
    (C10_thm envCacheHit "  " "grayscale" true).2 (by decide)⟩
